import Mathlib

/-!
Verification development for the product-analytics dashboard (`src/app.py`).

The Python source manipulates pandas DataFrames of monthly metric records.
We embed a DataFrame row as a `MetricRecord` with a date measured in days
(pandas timestamps support ordering and `timedelta(days := n)` addition,
which is all the source uses) and metric columns as exact rationals.

Pandas arithmetic is IEEE-754 double arithmetic.  All dataset cells are
finite, and the only operations in the source that can produce non-finite
values are divisions (`pct_change`, the KPI percentage changes, the churn
rate) and the propagation of those values through `mean`, `*`, `+` and
`**`.  We model a pandas float as `FV`: a finite rational, a signed
infinity, or NaN, and give each operation the IEEE behaviour on the
arguments that actually arise (finite values, the infinities and NaN that
the divisions produce).
-/

set_option autoImplicit false

namespace Dashboard

/-- A pandas float value: finite rational, signed infinity (`inf true` is
`+∞`), or NaN. -/
inductive FV where
  | fin : ℚ → FV
  | inf : Bool → FV
  | nan : FV
deriving DecidableEq, Repr

namespace FV

/-- Test for finite values: `true` exactly on `fin`. -/
def isFinite : FV → Bool
  | .fin _ => true
  | _ => false

/-- Finite part of a value, `none` for `±∞` and NaN. -/
def toFin : FV → Option ℚ
  | .fin q => some q
  | _ => none

/-- Test for positive infinity. -/
def isPosInf : FV → Bool
  | .inf true => true
  | _ => false

/-- Test for negative infinity. -/
def isNegInf : FV → Bool
  | .inf false => true
  | _ => false

/-- Multiply a float by a finite rational (IEEE: `±∞ * 0 = NaN`, sign rules
otherwise, `NaN * x = NaN`). -/
def mulQ : FV → ℚ → FV
  | .fin a, m => .fin (a * m)
  | .inf b, m => if 0 < m then .inf b else if m < 0 then .inf (!b) else .nan
  | .nan, _ => .nan

/-- Addition `1 + x` (IEEE: `1 + ±∞ = ±∞`, `1 + NaN = NaN`). -/
def onePlus : FV → FV
  | .fin a => .fin (1 + a)
  | .inf b => .inf b
  | .nan => .nan

/-- Power `x ** i` for a natural exponent (IEEE/Python: `x ** 0 = 1` even for NaN
and infinities; `(-∞) ** i` has the sign of `(-1) ** i`). -/
def pow : FV → Nat → FV
  | .fin a, i => .fin (a ^ i)
  | .inf b, i => if i = 0 then .fin 1 else if b then .inf true else .inf (i % 2 = 0)
  | .nan, i => if i = 0 then .fin 1 else .nan

/-- Multiply a finite rational by a float, `q * v` (IEEE sign rules,
`0 * ±∞ = NaN`, `q * NaN = NaN`). -/
def qMul (q : ℚ) : FV → FV
  | .fin a => .fin (q * a)
  | .inf b => if 0 < q then .inf b else if q < 0 then .inf (!b) else .nan
  | .nan => .nan

end FV

/-- IEEE division of finite doubles: `num / 0` is `±∞` by the sign of `num`
(pandas zeros are `+0`), `0 / 0` is NaN, otherwise exact. -/
def pyDivQ (num den : ℚ) : FV :=
  if den = 0 then
    if 0 < num then .inf true else if num < 0 then .inf false else .nan
  else .fin (num / den)

/-- One row of the metrics DataFrame.  `date` is the timestamp in days;
the metric columns are the CSV columns of the same names. -/
structure MetricRecord where
  date : Int
  monthly_active_users : ℚ
  monthly_revenue : ℚ
  new_signups : ℚ
  churned_users : ℚ
  conversion_rate : ℚ
deriving DecidableEq, Repr

/-- Errors raised by the Python code (uncaught exceptions). -/
inductive PyError where
  | indexError
deriving DecidableEq, Repr

/-- The dictionary built by `calculate_metrics` (src/app.py lines 29-36).
`mau`, `revenue` and `conversion` are copied finite cells; the three
derived fields come from float divisions and may be non-finite. -/
structure KpiMetrics where
  mau : ℚ
  mau_change : FV
  revenue : ℚ
  revenue_change : FV
  churn_rate : FV
  conversion : ℚ
deriving DecidableEq, Repr

/-- Embedding of `calculate_metrics(df)` (src/app.py lines 25-37): `latest = df.iloc[-1]`,
`previous = df.iloc[-2]` — an `IndexError` when the frame has fewer than two
rows — and the six dictionary entries.  We read `iloc[-1]` and `iloc[-2]` as
the first two elements of the reversed row list. -/
def calculate_metrics (df : List MetricRecord) : Except PyError KpiMetrics :=
  match df.reverse with
  | latest :: previous :: _ =>
      .ok
        { mau := latest.monthly_active_users
        , mau_change :=
            (pyDivQ (latest.monthly_active_users - previous.monthly_active_users)
              previous.monthly_active_users).mulQ 100
        , revenue := latest.monthly_revenue
        , revenue_change :=
            (pyDivQ (latest.monthly_revenue - previous.monthly_revenue)
              previous.monthly_revenue).mulQ 100
        , churn_rate :=
            (pyDivQ latest.churned_users previous.monthly_active_users).mulQ 100
        , conversion := latest.conversion_rate }
  | _ => .error .indexError

/-! ## Forecast Engine (`forecast_metrics`, src/app.py lines 40-67) -/

/-- Stable insertion of a record into a date-sorted list (kept after equal
dates, so the sort below is stable; `sort_values` ties are irrelevant to
every claim, which only uses distinct dates). -/
def insertByDate (r : MetricRecord) : List MetricRecord → List MetricRecord
  | [] => [r]
  | x :: xs => if r.date < x.date then r :: x :: xs else x :: insertByDate r xs

/-- Embedding of `df.sort_values("date")` (src/app.py line 42): sort rows ascending by
date. -/
def sort_values : List MetricRecord → List MetricRecord
  | [] => []
  | x :: xs => insertByDate x (sort_values xs)

/-- Embedding of `df.tail(6)` (src/app.py line 45): the last `min 6 n` rows. -/
def tail6 (xs : List MetricRecord) : List MetricRecord :=
  xs.drop (xs.length - 6)

/-- The successive `(cur - prev) / prev` ratios of `Series.pct_change`,
starting from a previous value `prev`.  Division is IEEE (`pyDivQ`). -/
def pyPct : ℚ → List ℚ → List FV
  | _, [] => []
  | prev, cur :: rest => pyDivQ (cur - prev) prev :: pyPct cur rest

/-- Embedding of `Series.pct_change()`: NaN in the first position, then the successive
relative changes (the cells of the source series are finite, so no filling
occurs). -/
def pct_change (xs : List ℚ) : List FV :=
  match xs with
  | [] => []
  | x :: rest => .nan :: pyPct x rest

/-- Embedding of `Series.mean()` with the pandas default `skipna=True`: NaN entries are
skipped, infinities contaminate the sum (`+∞` and `-∞` together give NaN),
and the mean of no non-NaN entries is NaN. -/
def pyMean (xs : List FV) : FV :=
  if xs.any FV.isPosInf then
    if xs.any FV.isNegInf then .nan else .inf true
  else if xs.any FV.isNegInf then .inf false
  else
    let fins := xs.filterMap FV.toFin
    if fins.length = 0 then .nan else .fin (fins.sum / (fins.length : ℚ))

/-- One row of the DataFrame returned by `forecast_metrics`
(src/app.py lines 62-67): projected date, projected MAU and revenue
(float arithmetic, hence `FV`), and the constant `type` column. -/
structure ForecastRow where
  date : Int
  monthly_active_users : FV
  monthly_revenue : FV
  type : String
deriving DecidableEq, Repr

/-- Embedding of `forecast_metrics(df, months_ahead, scenario_multiplier)`
(src/app.py lines 40-67).  On the sorted frame, `iloc[-1]` raises an
`IndexError` exactly when `df` is empty (the growth-rate means and the
`max()` before it are total on an empty frame), so the emptiness test is
hoisted to the front.  `range(1, months_ahead+1)` has `max 0 months_ahead`
elements, i.e. `months_ahead.toNat`. -/
def forecast_metrics (df : List MetricRecord) (months_ahead : Int)
    (scenario_multiplier : ℚ) : Except PyError (List ForecastRow) :=
  match (sort_values df).getLast? with
  | none => .error .indexError
  | some lastRec =>
      let df_sorted := sort_values df
      let recent_data := tail6 df_sorted
      let growth_rate := pyMean (pct_change (recent_data.map (·.monthly_active_users)))
      let revenue_growth := pyMean (pct_change (recent_data.map (·.monthly_revenue)))
      let adjusted_growth := growth_rate.mulQ scenario_multiplier
      let adjusted_revenue_growth := revenue_growth.mulQ scenario_multiplier
      let last_date := (df_sorted.map (·.date)).foldr max lastRec.date
      let last_mau := lastRec.monthly_active_users
      let last_revenue := lastRec.monthly_revenue
      .ok ((List.range months_ahead.toNat).map (fun (i : Nat) =>
        { date := last_date + 30 * ((i : Int) + 1)
        , monthly_active_users := FV.qMul last_mau (adjusted_growth.onePlus.pow (i + 1 : Nat))
        , monthly_revenue := FV.qMul last_revenue (adjusted_revenue_growth.onePlus.pow (i + 1 : Nat))
        , type := "Forecast" }))

/-! ## Reference definitions from the specification (§4.3), in exact
rational arithmetic, used to state what the rates of the Forecast Engine mean. -/

/-- Month-over-month relative changes of a series, from a given previous
value: the list `(cur − prev) / prev` of the spec. -/
def specPct : ℚ → List ℚ → List ℚ
  | _, [] => []
  | prev, cur :: rest => (cur - prev) / prev :: specPct cur rest

/-- The specification-side list of month-over-month percentage changes of a series. -/
def pctList (xs : List ℚ) : List ℚ :=
  match xs with
  | [] => []
  | x :: rest => specPct x rest

/-- The specification-side mean: sum over count. -/
def specMean (xs : List ℚ) : ℚ := xs.sum / (xs.length : ℚ)

/-- The specification-side `growthRate`: mean of the month-over-month changes of a
column over the trailing window. -/
def specGrowthRate (xs : List ℚ) : ℚ := specMean (pctList xs)

/-- The trailing window of the Forecast Engine: up to 6 most recent records
after sorting by date. -/
def trailingWindow (df : List MetricRecord) : List MetricRecord :=
  tail6 (sort_values df)

/-! ## Ingestion (`update_data`, src/app.py lines 228-246) -/

/-- One row of an uploaded CSV as `pd.read_csv` delivers it: the text of
the `date` cell is represented by its `pd.to_datetime` parse result
(`none` when unparseable), the metric cells by their numeric values. -/
structure RawRecord where
  rawDate : Option Int
  monthly_active_users : ℚ
  monthly_revenue : ℚ
  new_signups : ℚ
  churned_users : ℚ
  conversion_rate : ℚ
deriving DecidableEq, Repr

/-- The `contents` string of an upload, abstracted to the outcomes of the
successive decoding steps of `update_data`: whether
`contents.split(",")` yields the two expected parts, whether base64 and
UTF-8 decoding succeed, whether `pd.read_csv` parses, whether the frame
has a `date` column, and the parsed rows. -/
structure RawUpload where
  splits : Bool
  decodes : Bool
  csvParses : Bool
  hasDateColumn : Bool
  rows : List RawRecord
deriving DecidableEq, Repr

/-- Embedding of `pd.to_datetime(df["date"])` applied row-wise: all dates must parse,
else the whole conversion raises. -/
def parseDates : List RawRecord → Option (List MetricRecord)
  | [] => some []
  | r :: rs =>
      match r.rawDate, parseDates rs with
      | some d, some tl =>
          some ({ date := d
                , monthly_active_users := r.monthly_active_users
                , monthly_revenue := r.monthly_revenue
                , new_signups := r.new_signups
                , churned_users := r.churned_users
                , conversion_rate := r.conversion_rate } :: tl)
      | _, _ => none

/-- The `try:` block of `update_data` (src/app.py lines 238-242): each
failing step raises, caught by the `except` clause; a fully decoded frame
with a parseable `date` column is returned as-is — no sorting, no
duplicate-date check, no numeric check of the metric columns. -/
def parse_upload (u : RawUpload) : Except String (List MetricRecord) :=
  if !u.splits then .error "ValueError: unpack"
  else if !u.decodes then .error "binascii.Error: invalid base64"
  else if !u.csvParses then .error "pandas.errors.ParserError"
  else if !u.hasDateColumn then .error "KeyError: date"
  else
    match parseDates u.rows with
    | some recs => .ok recs
    | none => .error "date parsing failed"

/-- The value written back into the `upload-status` div. -/
inductive UploadStatus where
  | empty
  | success (filename : String)
  | failure (msg : String)
deriving DecidableEq, Repr

/-- Embedding of `update_data(contents, filename)` (src/app.py lines 234-246).  The
first output of the callback overwrites the `stored-data` store (the canonical
Dataset) unconditionally: the parsed upload on success, and the
module-level default frame `df_default` — NOT the previously stored
Dataset, which the callback never reads — on a missing upload or on any
parsing failure.  `df_default` is loaded from `sample_data.csv`, which is
not among the sources, so it is passed as an explicit argument. -/
def update_data (df_default : List MetricRecord) (contents : Option RawUpload)
    (filename : String) : List MetricRecord × UploadStatus :=
  match contents with
  | none => (df_default, .empty)
  | some u =>
      match parse_upload u with
      | .ok df => (df, .success filename)
      | .error e => (df_default, .failure e)

/-- Modelled from the spec: `sample_data.csv` (the built-in default sample
Dataset loaded by `load_default_data`, src/app.py lines 17-22) is not among
the sources.  The spec fixes only its schema (§6) and gives the §8 example
months (Jan: MAU 1000, churned 50; Feb: MAU 1100, churned 60), so those two
records stand in for the default frame wherever a concrete value is
needed; every general theorem quantifies over the default instead. -/
def df_default_model : List MetricRecord :=
  [ { date := 0, monthly_active_users := 1000, monthly_revenue := 50000
    , new_signups := 120, churned_users := 50, conversion_rate := 5 }
  , { date := 31, monthly_active_users := 1100, monthly_revenue := 56000
    , new_signups := 140, churned_users := 60, conversion_rate := 6 } ]

/-- Dates strictly increasing along the list: sorted ascending with no
duplicate dates (the Dataset invariant of the spec). -/
def datesStrictMono : List MetricRecord → Bool
  | [] => true
  | [_] => true
  | a :: b :: rest => a.date < b.date && datesStrictMono (b :: rest)

/-! ## View callbacks (src/app.py lines 248-417) and the render cycle.

Each chart callback builds a plotly figure; its data content is the series
it plots (styling is presentation).  `update_kpis` formats the
`calculate_metrics` dictionary into display strings; its data content is
that dictionary. -/

/-- Embedding of `update_kpis` (lines 248-268): reads only `stored-data`, formats
`calculate_metrics(df)`. -/
def update_kpis (df : List MetricRecord) : Except PyError KpiMetrics :=
  calculate_metrics df

/-- Embedding of `update_growth_chart` (lines 270-291): the `(date, monthly_active_users)`
line series, rows in stored order. -/
def update_growth_chart (df : List MetricRecord) : List (Int × ℚ) :=
  df.map (fun r => (r.date, r.monthly_active_users))

/-- Embedding of `update_revenue_chart` (lines 293-314): the `(date, monthly_revenue)`
area series. -/
def update_revenue_chart (df : List MetricRecord) : List (Int × ℚ) :=
  df.map (fun r => (r.date, r.monthly_revenue))

/-- Embedding of `update_engagement_chart` (lines 374-417): the two grouped bar series
`(date, new_signups)` and `(date, churned_users)`. -/
def update_engagement_chart (df : List MetricRecord) :
    List (Int × ℚ) × List (Int × ℚ) :=
  (df.map (fun r => (r.date, r.new_signups)),
   df.map (fun r => (r.date, r.churned_users)))

/-- The two traces of the forecast figure: historical `(date, MAU)` and
projected `(date, MAU)`. -/
structure ForecastView where
  historical : List (Int × ℚ)
  forecastTrace : List (Int × FV)
deriving DecidableEq, Repr

/-- Embedding of `update_forecast` (lines 316-372): reads `stored-data` and BOTH
sliders, calls `forecast_metrics(df, months, growth_multiplier)` (whose
exception would propagate), and plots the historical MAU trace and the
forecast MAU trace. -/
def update_forecast (df : List MetricRecord) (growth_multiplier : ℚ)
    (months : Int) : Except PyError ForecastView :=
  (forecast_metrics df months growth_multiplier).map (fun df_forecast =>
    { historical := df.map (fun r => (r.date, r.monthly_active_users))
    , forecastTrace := df_forecast.map (fun r => (r.date, r.monthly_active_users)) })

/-- The two scenario controls (src/app.py lines 180-201): the
growth-rate-multiplier slider and the forecast-months slider. -/
structure ScenarioParams where
  growthMultiplier : ℚ
  forecastMonths : Int
deriving DecidableEq, Repr

/-- All derived outputs of one render cycle. -/
structure RenderOutputs where
  kpis : Except PyError KpiMetrics
  growth : List (Int × ℚ)
  revenue : List (Int × ℚ)
  engagement : List (Int × ℚ) × List (Int × ℚ)
  forecastView : Except PyError ForecastView
deriving Repr

/-- One render cycle against a committed Dataset and the current
ScenarioParameters, wired exactly as the Dash callbacks declare their
Inputs: only `update_forecast` receives the sliders. -/
def renderCycle (df : List MetricRecord) (p : ScenarioParams) : RenderOutputs :=
  { kpis := update_kpis df
  , growth := update_growth_chart df
  , revenue := update_revenue_chart df
  , engagement := update_engagement_chart df
  , forecastView := update_forecast df p.growthMultiplier p.forecastMonths }

/-! ## Basic computation lemmas -/

namespace FV

@[simp] lemma isPosInf_fin (q : ℚ) : (FV.fin q).isPosInf = false := rfl

@[simp] lemma isPosInf_nan : FV.nan.isPosInf = false := rfl

@[simp] lemma isNegInf_fin (q : ℚ) : (FV.fin q).isNegInf = false := rfl

@[simp] lemma isNegInf_nan : FV.nan.isNegInf = false := rfl

@[simp] lemma toFin_fin (q : ℚ) : (FV.fin q).toFin = some q := rfl

@[simp] lemma toFin_nan : FV.nan.toFin = none := rfl

@[simp] lemma mulQ_fin (a m : ℚ) : (FV.fin a).mulQ m = .fin (a * m) := rfl

@[simp] lemma mulQ_nan (m : ℚ) : FV.nan.mulQ m = .nan := rfl

@[simp] lemma onePlus_fin (a : ℚ) : (FV.fin a).onePlus = .fin (1 + a) := rfl

@[simp] lemma onePlus_nan : FV.nan.onePlus = .nan := rfl

@[simp] lemma pow_fin (a : ℚ) (i : Nat) : (FV.fin a).pow i = .fin (a ^ i) := rfl

@[simp] lemma pow_nan_succ (i : Nat) : FV.nan.pow (i + 1) = .nan := by
  simp [FV.pow]

@[simp] lemma qMul_fin (q a : ℚ) : FV.qMul q (.fin a) = .fin (q * a) := rfl

@[simp] lemma qMul_nan (q : ℚ) : FV.qMul q .nan = .nan := rfl

end FV

lemma pyDivQ_of_den_ne_zero (num den : ℚ) (h : den ≠ 0) :
    pyDivQ num den = .fin (num / den) := by
  simp [pyDivQ, h]

lemma pyPct_map_fin (x0 : ℚ) (xs : List ℚ) (h0 : x0 ≠ 0)
    (h : ∀ x ∈ xs, x ≠ 0) :
    pyPct x0 xs = (specPct x0 xs).map FV.fin := by
  induction xs generalizing x0 with
  | nil => rfl
  | cons c rest ih =>
      have hc : c ≠ 0 := h c (by simp)
      have hrest : ∀ x ∈ rest, x ≠ 0 := fun x hx => h x (by simp [hx])
      simp only [pyPct, specPct, List.map_cons]
      rw [pyDivQ_of_den_ne_zero _ _ h0, ih c hc hrest]

lemma any_isPosInf_map_fin (l : List ℚ) :
    (l.map FV.fin).any FV.isPosInf = false := by
  induction l with
  | nil => rfl
  | cons a t ih => simp [ih]

lemma any_isNegInf_map_fin (l : List ℚ) :
    (l.map FV.fin).any FV.isNegInf = false := by
  induction l with
  | nil => rfl
  | cons a t ih => simp [ih]

lemma filterMap_toFin_map_fin (l : List ℚ) :
    (l.map FV.fin).filterMap FV.toFin = l := by
  induction l with
  | nil => rfl
  | cons a t ih => simp [List.filterMap_cons, ih]

/-- Evaluation of `Series.mean` on a pct-change column whose first entry is the leading
NaN and whose remaining entries are finite: the NaN is skipped, so the
result is the exact mean of the finite entries. -/
lemma pyMean_nan_fins (l : List ℚ) (hl : l ≠ []) :
    pyMean (FV.nan :: l.map FV.fin) = .fin (specMean l) := by
  have hpos : (FV.nan :: l.map FV.fin).any FV.isPosInf = false := by
    simp [any_isPosInf_map_fin]
  have hneg : (FV.nan :: l.map FV.fin).any FV.isNegInf = false := by
    simp [any_isNegInf_map_fin]
  have hfm : (FV.nan :: l.map FV.fin).filterMap FV.toFin = l := by
    rw [List.filterMap_cons]
    simp only [FV.toFin_nan]
    exact filterMap_toFin_map_fin l
  have hlen : l.length ≠ 0 := by simpa [List.length_eq_zero] using hl
  unfold pyMean
  rw [hpos, hneg, hfm]
  simp [hlen, specMean]

/-- Over a window of at least two all-nonzero cells,
`pct_change().mean()` computes exactly the growth rate of the spec. -/
lemma pyMean_pct_change (xs : List ℚ) (h2 : 2 ≤ xs.length)
    (h : ∀ x ∈ xs, x ≠ 0) :
    pyMean (pct_change xs) = .fin (specGrowthRate xs) := by
  match xs, h2 with
  | x0 :: x1 :: rest, _ =>
      have hx0 : x0 ≠ 0 := h x0 (by simp)
      have htl : ∀ x ∈ x1 :: rest, x ≠ 0 := fun x hx => h x (by simp [hx])
      have hne : specPct x0 (x1 :: rest) ≠ [] := by simp [specPct]
      calc pyMean (pct_change (x0 :: x1 :: rest))
          = pyMean (FV.nan :: (specPct x0 (x1 :: rest)).map FV.fin) := by
            rw [pct_change, pyPct_map_fin x0 (x1 :: rest) hx0 htl]
        _ = .fin (specMean (specPct x0 (x1 :: rest))) := pyMean_nan_fins _ hne
        _ = .fin (specGrowthRate (x0 :: x1 :: rest)) := rfl

lemma exists_getLast_of_window (ds : List MetricRecord)
    (hw : 2 ≤ (trailingWindow ds).length) :
    ∃ r, (sort_values ds).getLast? = some r := by
  have hne : sort_values ds ≠ [] := by
    intro h
    rw [trailingWindow, tail6, h] at hw
    simp at hw
  cases hl : (sort_values ds).getLast? with
  | none => exact absurd (List.getLast?_eq_none_iff.mp hl) hne
  | some r => exact ⟨r, rfl⟩

/-- Complete characterisation of a successful forecast over a window of
at least two records with nonzero MAU and revenue cells: `forecast_metrics`
returns, for `i = 1..months`, the row
`(lastDate + 30·i, lastMAU·(1+g·mult)^i, lastRev·(1+h·mult)^i)` where `g`
and `h` are the specification-side mean month-over-month growth rates over the
trailing window. -/
theorem forecast_metrics_spec (ds : List MetricRecord) (months : Int)
    (mult : ℚ)
    (hw : 2 ≤ (trailingWindow ds).length)
    (hmau : ∀ r ∈ trailingWindow ds, r.monthly_active_users ≠ 0)
    (hrev : ∀ r ∈ trailingWindow ds, r.monthly_revenue ≠ 0) :
    ∃ lastRec, (sort_values ds).getLast? = some lastRec ∧
      forecast_metrics ds months mult =
        .ok ((List.range months.toNat).map (fun (i : Nat) =>
          { date := ((sort_values ds).map (·.date)).foldr max lastRec.date
              + 30 * ((i : Int) + 1)
          , monthly_active_users := .fin (lastRec.monthly_active_users *
              (1 + specGrowthRate ((trailingWindow ds).map (·.monthly_active_users)) * mult) ^ (i + 1))
          , monthly_revenue := .fin (lastRec.monthly_revenue *
              (1 + specGrowthRate ((trailingWindow ds).map (·.monthly_revenue)) * mult) ^ (i + 1))
          , type := "Forecast" })) := by
  obtain ⟨lastRec, hlast⟩ := exists_getLast_of_window ds hw
  refine ⟨lastRec, hlast, ?_⟩
  have hg : pyMean (pct_change ((tail6 (sort_values ds)).map (·.monthly_active_users)))
      = .fin (specGrowthRate ((trailingWindow ds).map (·.monthly_active_users))) := by
    rw [show tail6 (sort_values ds) = trailingWindow ds from rfl]
    exact pyMean_pct_change _ (by simpa using hw)
      (by intro x hx
          obtain ⟨r, hr, rfl⟩ := List.mem_map.mp hx
          exact hmau r hr)
  have hr : pyMean (pct_change ((tail6 (sort_values ds)).map (·.monthly_revenue)))
      = .fin (specGrowthRate ((trailingWindow ds).map (·.monthly_revenue))) := by
    rw [show tail6 (sort_values ds) = trailingWindow ds from rfl]
    exact pyMean_pct_change _ (by simpa using hw)
      (by intro x hx
          obtain ⟨r, hrm, rfl⟩ := List.mem_map.mp hx
          exact hrev r hrm)
  unfold forecast_metrics
  rw [hlast]
  simp only [hg, hr, FV.mulQ_fin, FV.onePlus_fin, FV.pow_fin, FV.qMul_fin]

deriving instance DecidableEq for Except

/-! ## Concrete example data -/

/-- Example January record from spec §8: MAU 1000, churned 50. -/
def exRec1 : MetricRecord :=
  { date := 0, monthly_active_users := 1000, monthly_revenue := 500
  , new_signups := 10, churned_users := 50, conversion_rate := 5 }

/-- Example February record from spec §8: MAU 1100, churned 60. -/
def exRec2 : MetricRecord :=
  { date := 30, monthly_active_users := 1100, monthly_revenue := 600
  , new_signups := 20, churned_users := 60, conversion_rate := 6 }

/-- A first record with zero MAU (the `previous.mau == 0` edge case). -/
def exRecZeroMau : MetricRecord :=
  { date := 0, monthly_active_users := 0, monthly_revenue := 500
  , new_signups := 10, churned_users := 50, conversion_rate := 5 }

/-- A sharply declining second record (MAU 1000 → 100), giving a
month-over-month growth rate of −0.9. -/
def exRecDecline : MetricRecord :=
  { date := 30, monthly_active_users := 100, monthly_revenue := 100
  , new_signups := 5, churned_users := 5, conversion_rate := 1 }

/-! ## Claim C1 — the KPI snapshot formulas -/

/-- Claim C1: for every Dataset with at least two records (equivalently,
whose reversed row list starts with `latest` and `previous`) and
previous-month MAU and revenue nonzero — so that the reference quotients
are defined — `calculate_metrics` returns exactly the reference
DerivedKPISnapshot: `mau = latest.monthly_active_users`,
`mauChange = (latest.mau − previous.mau)/previous.mau × 100`,
`revenueChange` analogous, `churnRate = latest.churned_users /
previous.monthly_active_users × 100` (the base population of the previous month), and
`conversion = latest.conversion_rate` passed through. -/
theorem claim1_kpi_snapshot (ds : List MetricRecord)
    (latest previous : MetricRecord) (rest : List MetricRecord)
    (hds : ds.reverse = latest :: previous :: rest)
    (hm : previous.monthly_active_users ≠ 0)
    (hv : previous.monthly_revenue ≠ 0) :
    calculate_metrics ds = .ok
      { mau := latest.monthly_active_users
      , mau_change := .fin ((latest.monthly_active_users - previous.monthly_active_users)
          / previous.monthly_active_users * 100)
      , revenue := latest.monthly_revenue
      , revenue_change := .fin ((latest.monthly_revenue - previous.monthly_revenue)
          / previous.monthly_revenue * 100)
      , churn_rate := .fin (latest.churned_users / previous.monthly_active_users * 100)
      , conversion := latest.conversion_rate } := by
  unfold calculate_metrics
  rw [hds]
  simp [pyDivQ_of_den_ne_zero _ _ hm, pyDivQ_of_den_ne_zero _ _ hv]

/-- Claim C1 witness: the example of the spec — previous MAU 1000, latest MAU
1100 — yields `mauChange = 10.0`, and churn 60 against base 1000 yields
`churnRate = 6.0`. -/
theorem claim1_kpi_snapshot_witness :
    ([exRec1, exRec2].reverse = [exRec2, exRec1] ∧
      exRec1.monthly_active_users ≠ 0 ∧ exRec1.monthly_revenue ≠ 0) ∧
    calculate_metrics [exRec1, exRec2] = .ok
      { mau := 1100, mau_change := .fin 10, revenue := 600
      , revenue_change := .fin 20, churn_rate := .fin 6, conversion := 6 } := by
  refine ⟨⟨rfl, by norm_num [exRec1], by norm_num [exRec1]⟩, ?_⟩
  have h := claim1_kpi_snapshot [exRec1, exRec2] exRec2 exRec1 [] rfl
    (by norm_num [exRec1]) (by norm_num [exRec1])
  rw [h]
  simp only [exRec1, exRec2, Except.ok.injEq, KpiMetrics.mk.injEq, FV.fin.injEq]
  norm_num

/-! ## Claim C10 — the snapshot depends only on the last two records -/

/-- Claim C10: `calculate_metrics` reads only `iloc[-1]` and `iloc[-2]`:
any two Datasets with the same final two records — whatever their earlier
records are — produce identical KPI snapshots. -/
theorem claim10_only_last_two (t1 t2 : List MetricRecord)
    (previous latest : MetricRecord) :
    calculate_metrics (t1 ++ [previous, latest]) =
      calculate_metrics (t2 ++ [previous, latest]) := by
  unfold calculate_metrics
  simp [List.reverse_append]

/-! ## Claim C3 — error behaviour of the Metrics Calculator -/

/-- Concrete C3 input: two records whose second-to-last has MAU 0. -/
def dsZeroPrev : List MetricRecord := [exRecZeroMau, exRec2]

/-- Claim C3 counterexample: on the two-record Dataset whose
second-to-last record has `monthly_active_users = 0`, the claim requires
an `InsufficientHistory` signal, but `calculate_metrics` returns a
snapshot — with `mau_change` and `churn_rate` equal to `+∞` (the float
division by zero) — and no error. -/
theorem claim3_cex :
    calculate_metrics dsZeroPrev = .ok
      { mau := 1100, mau_change := .inf true, revenue := 600
      , revenue_change := .fin 20, churn_rate := .inf true, conversion := 6 } := by
  unfold dsZeroPrev calculate_metrics
  norm_num [exRecZeroMau, exRec2, pyDivQ, FV.mulQ, Except.ok.injEq,
    KpiMetrics.mk.injEq, FV.fin.injEq]

lemma pyDivQ_den_zero_mulQ_not_finite (num : ℚ) :
    ((pyDivQ num 0).mulQ 100).isFinite = false := by
  unfold pyDivQ
  rw [if_pos rfl]
  split_ifs with h1 h2 <;> norm_num [FV.mulQ, FV.isFinite]

/-- Claim C3 (amended): `calculate_metrics` fails — with an uncaught
`IndexError`, not a displayable `InsufficientHistory` signal — exactly on
Datasets with fewer than 2 records; when the second-to-last record has
`monthly_active_users = 0` it does NOT signal an error but returns a
snapshot whose `mau_change` and `churn_rate` are non-finite floats
(infinity or NaN). -/
theorem claim3_amended (ds : List MetricRecord)
    (latest previous : MetricRecord) (rest : List MetricRecord)
    (hds : ds.reverse = latest :: previous :: rest)
    (hp : previous.monthly_active_users = 0) :
    (∀ ds2 : List MetricRecord, ds2.length < 2 →
      calculate_metrics ds2 = .error .indexError) ∧
    ∃ m, calculate_metrics ds = .ok m ∧
      m.mau_change.isFinite = false ∧ m.churn_rate.isFinite = false := by
  constructor
  · intro ds2 h2
    match ds2, h2 with
    | [], _ => rfl
    | [x], _ => rfl
    | x :: y :: t, h2 =>
        simp only [List.length_cons] at h2
        omega
  · unfold calculate_metrics
    rw [hds]
    refine ⟨_, rfl, ?_, ?_⟩
    · rw [hp]
      exact pyDivQ_den_zero_mulQ_not_finite _
    · rw [hp]
      exact pyDivQ_den_zero_mulQ_not_finite _

/-- Claim C3 (amended) witness at the concrete zero-MAU Dataset. -/
theorem claim3_amended_witness :
    (dsZeroPrev.reverse = [exRec2, exRecZeroMau] ∧
      exRecZeroMau.monthly_active_users = 0) ∧
    ((∀ ds2 : List MetricRecord, ds2.length < 2 →
        calculate_metrics ds2 = .error .indexError) ∧
      ∃ m, calculate_metrics dsZeroPrev = .ok m ∧
        m.mau_change.isFinite = false ∧ m.churn_rate.isFinite = false) :=
  ⟨⟨rfl, rfl⟩, claim3_amended dsZeroPrev exRec2 exRecZeroMau [] rfl rfl⟩

/-! ## Claim C2 — the forecast projection formulas -/

/-- Claim C2: over a trailing window of at least two records (all with
nonzero MAU and revenue, so the month-over-month changes are defined) and
a horizon of at least one month, `forecast_metrics` returns exactly
`horizonMonths` points, the `i`-th (1-based) being
`(lastDate + 30·i days, lastMAU·(1+adjustedGrowth)^i,
lastRevenue·(1+adjustedRevenueGrowth)^i)` with
`adjustedGrowth = growthRate · growthMultiplier` and `growthRate` the
mean month-over-month relative change over the window (revenue analogous).
With multiplier 0 every point equals the last historical value, and with a
constant rate `r` the points compound as `(1+r), (1+r)², …`. -/
theorem claim2_forecast_formula (ds : List MetricRecord) (months : Int)
    (mult : ℚ)
    (hw : 2 ≤ (trailingWindow ds).length)
    (hmau : ∀ r ∈ trailingWindow ds, r.monthly_active_users ≠ 0)
    (hrev : ∀ r ∈ trailingWindow ds, r.monthly_revenue ≠ 0)
    (hh : 1 ≤ months) :
    ∃ lastRec pts, (sort_values ds).getLast? = some lastRec ∧
      forecast_metrics ds months mult = .ok pts ∧
      pts.length = months.toNat ∧ (pts.length : Int) = months ∧
      ∀ i : Nat, i < months.toNat → pts[i]? = some
        { date := ((sort_values ds).map (·.date)).foldr max lastRec.date
            + 30 * ((i : Int) + 1)
        , monthly_active_users := .fin (lastRec.monthly_active_users *
            (1 + specGrowthRate ((trailingWindow ds).map (·.monthly_active_users)) * mult) ^ (i + 1))
        , monthly_revenue := .fin (lastRec.monthly_revenue *
            (1 + specGrowthRate ((trailingWindow ds).map (·.monthly_revenue)) * mult) ^ (i + 1))
        , type := "Forecast" } := by
  obtain ⟨lastRec, hlast, heq⟩ := forecast_metrics_spec ds months mult hw hmau hrev
  refine ⟨lastRec, _, hlast, heq, by simp, ?_, ?_⟩
  · simp [Int.toNat_of_nonneg (le_trans zero_le_one hh)]
  · intro i hi
    simp [List.getElem?_map, List.getElem?_range, hi]

/-- Claim C2 witness: the two-record example Dataset (MAU 1000 → 1100,
revenue 500 → 600), horizon 3, multiplier 1. -/
theorem claim2_forecast_formula_witness :
    (2 ≤ (trailingWindow [exRec1, exRec2]).length ∧
      (∀ r ∈ trailingWindow [exRec1, exRec2], r.monthly_active_users ≠ 0) ∧
      (∀ r ∈ trailingWindow [exRec1, exRec2], r.monthly_revenue ≠ 0) ∧
      (1 : Int) ≤ 3) ∧
    (∃ lastRec pts, (sort_values [exRec1, exRec2]).getLast? = some lastRec ∧
      forecast_metrics [exRec1, exRec2] 3 1 = .ok pts ∧
      pts.length = (3 : Int).toNat ∧ (pts.length : Int) = 3 ∧
      ∀ i : Nat, i < (3 : Int).toNat → pts[i]? = some
        { date := ((sort_values [exRec1, exRec2]).map (·.date)).foldr max lastRec.date
            + 30 * ((i : Int) + 1)
        , monthly_active_users := .fin (lastRec.monthly_active_users *
            (1 + specGrowthRate ((trailingWindow [exRec1, exRec2]).map (·.monthly_active_users)) * 1) ^ (i + 1))
        , monthly_revenue := .fin (lastRec.monthly_revenue *
            (1 + specGrowthRate ((trailingWindow [exRec1, exRec2]).map (·.monthly_revenue)) * 1) ^ (i + 1))
        , type := "Forecast" }) :=
  ⟨⟨by decide, by decide, by decide, by norm_num⟩,
    claim2_forecast_formula [exRec1, exRec2] 3 1 (by decide) (by decide)
      (by decide) (by norm_num)⟩

/-! ## Claim C5 — behaviour on windows of fewer than two records -/

/-- Claim C5 counterexample: a one-record Dataset must, per the claim,
make the Forecast Engine signal `InsufficientHistory`; instead
`forecast_metrics` returns a full three-point series all of whose
projected values are NaN. -/
theorem claim5_cex :
    forecast_metrics [exRec1] 3 1 = .ok
      [ { date := 30, monthly_active_users := .nan, monthly_revenue := .nan
        , type := "Forecast" }
      , { date := 60, monthly_active_users := .nan, monthly_revenue := .nan
        , type := "Forecast" }
      , { date := 90, monthly_active_users := .nan, monthly_revenue := .nan
        , type := "Forecast" } ] := by
  rfl

/-- Claim C5 (amended): no `InsufficientHistory` signal exists.  On an
empty Dataset `forecast_metrics` raises an uncaught `IndexError`; on a
one-record Dataset (window of one, undefined growth rates) it returns a
degenerate `horizonMonths`-point series whose projected MAU and revenue
are all NaN. -/
theorem claim5_amended (months : Int) (mult : ℚ) (r : MetricRecord) :
    forecast_metrics [] months mult = .error .indexError ∧
    ∃ pts, forecast_metrics [r] months mult = .ok pts ∧
      pts.length = months.toNat ∧
      ∀ p ∈ pts, p.monthly_active_users = .nan ∧ p.monthly_revenue = .nan := by
  refine ⟨rfl, _, rfl, by simp, ?_⟩
  intro p hp
  obtain ⟨i, _, rfl⟩ := List.mem_map.mp hp
  exact ⟨rfl, rfl⟩

/-- Claim C5 (amended) witness: horizon 3, multiplier 1, single January
record. -/
theorem claim5_amended_witness :
    forecast_metrics [] 3 1 = .error .indexError ∧
    ∃ pts, forecast_metrics [exRec1] 3 1 = .ok pts ∧
      pts.length = (3 : Int).toNat ∧
      ∀ p ∈ pts, p.monthly_active_users = .nan ∧ p.monthly_revenue = .nan :=
  claim5_amended 3 1 exRec1

/-! ## Claim C6 — no clamping of projected values -/

/-- Claim C6 counterexample: window MAU 1000 → 100 (growth rate −0.9),
multiplier 2, so `adjustedGrowth = −1.8 ≤ −1`; the claim requires the
projected values to be clamped at 0, but `forecast_metrics` returns a
negative MAU (−80) and negative revenue (−60). -/
theorem claim6_cex :
    forecast_metrics [exRec1, exRecDecline] 1 2 = .ok
      [ { date := 60, monthly_active_users := .fin (-80)
        , monthly_revenue := .fin (-60), type := "Forecast" } ] ∧
    (-80 : ℚ) < 0 := by
  refine ⟨?_, by norm_num⟩
  obtain ⟨lastRec, hlast, heq⟩ :=
    forecast_metrics_spec [exRec1, exRecDecline] 1 2 (by decide) (by decide)
      (by decide)
  have hcalc : (sort_values [exRec1, exRecDecline]).getLast? = some exRecDecline := rfl
  rw [hcalc] at hlast
  have hlr : lastRec = exRecDecline := (Option.some_inj.mp hlast).symm
  subst hlr
  rw [heq, show List.range (Int.toNat 1) = [0] from rfl]
  norm_num [Except.ok.injEq, ForecastRow.mk.injEq, FV.fin.injEq,
    exRec1, exRecDecline, trailingWindow, tail6, sort_values, insertByDate,
    specGrowthRate, specMean, pctList, specPct]

/-- Claim C6 (amended): projected values are emitted by the raw
compounding formula with no clamping at 0: whenever the forecast formulas
are defined, every projected MAU equals
`lastMAU · (1 + adjustedGrowth)^i` exactly — negative whenever that
product is negative (as at the counterexample input). -/
theorem claim6_no_clamping (ds : List MetricRecord) (months : Int)
    (mult : ℚ)
    (hw : 2 ≤ (trailingWindow ds).length)
    (hmau : ∀ r ∈ trailingWindow ds, r.monthly_active_users ≠ 0)
    (hrev : ∀ r ∈ trailingWindow ds, r.monthly_revenue ≠ 0) :
    ∃ lastRec pts, (sort_values ds).getLast? = some lastRec ∧
      forecast_metrics ds months mult = .ok pts ∧
      ∀ i : Nat, i < months.toNat →
        pts[i]?.map (·.monthly_active_users) = some
          (.fin (lastRec.monthly_active_users *
            (1 + specGrowthRate ((trailingWindow ds).map (·.monthly_active_users)) * mult) ^ (i + 1))) := by
  obtain ⟨lastRec, hlast, heq⟩ := forecast_metrics_spec ds months mult hw hmau hrev
  refine ⟨lastRec, _, hlast, heq, ?_⟩
  intro i hi
  simp [List.getElem?_map, List.getElem?_range, hi]

/-- Claim C6 (amended) witness: at the declining dataset with multiplier
2, the first projected MAU is exactly `100 · (1 − 1.8)¹ = −80`. -/
theorem claim6_no_clamping_witness :
    (2 ≤ (trailingWindow [exRec1, exRecDecline]).length ∧
      (∀ r ∈ trailingWindow [exRec1, exRecDecline], r.monthly_active_users ≠ 0) ∧
      (∀ r ∈ trailingWindow [exRec1, exRecDecline], r.monthly_revenue ≠ 0)) ∧
    (∃ lastRec pts,
      (sort_values [exRec1, exRecDecline]).getLast? = some lastRec ∧
      forecast_metrics [exRec1, exRecDecline] 1 2 = .ok pts ∧
      ∀ i : Nat, i < (1 : Int).toNat →
        pts[i]?.map (·.monthly_active_users) = some
          (.fin (lastRec.monthly_active_users *
            (1 + specGrowthRate ((trailingWindow [exRec1, exRecDecline]).map (·.monthly_active_users)) * 2) ^ (i + 1)))) :=
  ⟨⟨by decide, by decide, by decide⟩,
    claim6_no_clamping [exRec1, exRecDecline] 1 2 (by decide) (by decide)
      (by decide)⟩

/-! ## Claim C8 — horizon ≤ 0 is not rejected -/

lemma insertByDate_ne_nil (r : MetricRecord) (l : List MetricRecord) :
    insertByDate r l ≠ [] := by
  cases l with
  | nil => simp [insertByDate]
  | cons x xs =>
      unfold insertByDate
      split <;> simp

lemma sort_values_ne_nil (ds : List MetricRecord) (h : ds ≠ []) :
    sort_values ds ≠ [] := by
  cases ds with
  | nil => exact absurd rfl h
  | cons x xs => exact insertByDate_ne_nil x (sort_values xs)

/-- Claim C8 counterexample: with a perfectly valid two-record Dataset and
`horizonMonths = 0 ≤ 0`, the claim requires an `InvalidParameter`
rejection before computation; instead `forecast_metrics` silently returns
the empty ForecastSeries (`range(1, 1)` is empty). -/
theorem claim8_cex :
    forecast_metrics [exRec1, exRec2] 0 1 = .ok [] := by
  rfl

/-- Claim C8 (amended): no parameter validation exists.  For every
nonempty Dataset and every `horizonMonths ≤ 0`, `forecast_metrics`
computes normally and returns the empty series — no `InvalidParameter`
error is signalled. -/
theorem claim8_no_rejection (ds : List MetricRecord) (months : Int)
    (mult : ℚ) (hds : ds ≠ []) (hm : months ≤ 0) :
    forecast_metrics ds months mult = .ok [] := by
  obtain ⟨r, hr⟩ : ∃ r, (sort_values ds).getLast? = some r := by
    have hne := sort_values_ne_nil ds hds
    cases hl : (sort_values ds).getLast? with
    | none => exact absurd (List.getLast?_eq_none_iff.mp hl) hne
    | some r => exact ⟨r, rfl⟩
  unfold forecast_metrics
  rw [hr]
  simp [Int.toNat_of_nonpos hm]

/-- Claim C8 (amended) witness: one record, horizon −2. -/
theorem claim8_no_rejection_witness :
    (([exRec1] : List MetricRecord) ≠ [] ∧ (-2 : Int) ≤ 0) ∧
    forecast_metrics [exRec1] (-2) 1 = .ok [] :=
  ⟨⟨by simp, by norm_num⟩,
    claim8_no_rejection [exRec1] (-2) 1 (by simp) (by norm_num)⟩

/-! ## Claim C4 — what a failed ingestion commits -/

/-- An upload whose `contents` string cannot even be split into the
`content_type, content_string` pair. -/
def badUpload : RawUpload :=
  { splits := false, decodes := false, csvParses := false
  , hasDateColumn := false, rows := [] }

/-- A record standing for a previously uploaded (non-default) canonical
Dataset. -/
def priorRec : MetricRecord :=
  { date := 400, monthly_active_users := 7, monthly_revenue := 7
  , new_signups := 7, churned_users := 7, conversion_rate := 7 }

/-- Claim C4 counterexample: with prior canonical Dataset `[priorRec]`
and a failing upload, the claim requires the canonical Dataset to remain
`[priorRec]`; instead `update_data` overwrites the store with the default
sample frame, which differs from the prior canonical Dataset. -/
theorem claim4_cex :
    update_data df_default_model (some badUpload) "metrics.csv" =
      (df_default_model, .failure "ValueError: unpack") ∧
    df_default_model ≠ [priorRec] := by
  constructor
  · rfl
  · decide

/-- Claim C4 (amended): a failed ingestion never commits the malformed
upload, but it does not preserve the prior canonical Dataset either: the
callback unconditionally writes the module-level default frame back into
the store (fail-closed only when the prior canonical Dataset was the
default). -/
theorem claim4_failed_upload (df_default : List MetricRecord)
    (u : RawUpload) (fn e : String) (hfail : parse_upload u = .error e) :
    update_data df_default (some u) fn = (df_default, .failure e) := by
  simp [update_data, hfail]

/-- Claim C4 (amended) witness. -/
theorem claim4_failed_upload_witness :
    parse_upload badUpload = .error "ValueError: unpack" ∧
    update_data df_default_model (some badUpload) "metrics.csv" =
      (df_default_model, .failure "ValueError: unpack") :=
  ⟨rfl, claim4_failed_upload df_default_model badUpload "metrics.csv"
    "ValueError: unpack" rfl⟩

/-! ## Claim C7 — what a successful ingestion commits -/

/-- A valid-looking raw row with a given parsed date. -/
def rawRowAt (d : Int) : RawRecord :=
  { rawDate := some d, monthly_active_users := 1, monthly_revenue := 1
  , new_signups := 1, churned_users := 1, conversion_rate := 1 }

/-- An upload that decodes and parses fine but whose dates are out of
order and duplicated. -/
def dupUpload : RawUpload :=
  { splits := true, decodes := true, csvParses := true
  , hasDateColumn := true, rows := [rawRowAt 10, rawRowAt 5, rawRowAt 5] }

/-- The MetricRecord a parsed `rawRowAt d` becomes. -/
def recAt (d : Int) : MetricRecord :=
  { date := d, monthly_active_users := 1, monthly_revenue := 1
  , new_signups := 1, churned_users := 1, conversion_rate := 1 }

/-- Claim C7 counterexample: an upload whose rows are out of order with a
duplicated date is committed verbatim with a success status — the
committed Dataset is neither sorted ascending nor duplicate-free,
violating the claimed validity invariant. -/
theorem claim7_cex :
    update_data df_default_model (some dupUpload) "dup.csv" =
      ([recAt 10, recAt 5, recAt 5], .success "dup.csv") ∧
    datesStrictMono [recAt 10, recAt 5, recAt 5] = false := by
  constructor
  · rfl
  · decide

lemma parse_upload_ok_iff (u : RawUpload) (recs : List MetricRecord) :
    parse_upload u = .ok recs ↔
      u.splits = true ∧ u.decodes = true ∧ u.csvParses = true ∧
      u.hasDateColumn = true ∧ parseDates u.rows = some recs := by
  unfold parse_upload
  cases u.splits <;> cases u.decodes <;> cases u.csvParses <;>
    cases u.hasDateColumn <;> simp <;>
      cases h : parseDates u.rows <;> simp [h]

lemma parseDates_dates_parse (rs : List RawRecord) (recs : List MetricRecord)
    (h : parseDates rs = some recs) : ∀ r ∈ rs, r.rawDate.isSome = true := by
  induction rs generalizing recs with
  | nil => simp
  | cons a t ih =>
      intro r hr
      unfold parseDates at h
      cases ha : a.rawDate with
      | none => rw [ha] at h; simp at h
      | some d =>
          rw [ha] at h
          cases ht : parseDates t with
          | none => rw [ht] at h; simp at h
          | some tl =>
              rcases List.mem_cons.mp hr with rfl | hr2
              · simp [ha]
              · exact ih tl ht r hr2

/-- Claim C7 (amended): a successfully committed upload is committed
verbatim — the only validation is that the `content` string decodes, the
CSV parses, a `date` column exists, and every date cell parses.  The
committed Dataset is exactly the uploaded rows in upload order: it is NOT
sorted, duplicate dates are NOT rejected, and metric columns are not
type-checked. -/
theorem claim7_commit_verbatim (df_default : List MetricRecord)
    (u : RawUpload) (fn : String) (recs : List MetricRecord)
    (hok : parse_upload u = .ok recs) :
    update_data df_default (some u) fn = (recs, .success fn) ∧
    u.hasDateColumn = true ∧ parseDates u.rows = some recs ∧
    ∀ r ∈ u.rows, r.rawDate.isSome = true := by
  obtain ⟨-, -, -, hdc, hpd⟩ := (parse_upload_ok_iff u recs).mp hok
  exact ⟨by simp [update_data, hok], hdc, hpd,
    parseDates_dates_parse u.rows recs hpd⟩

/-- Claim C7 (amended) witness at the duplicated-dates upload. -/
theorem claim7_commit_verbatim_witness :
    parse_upload dupUpload = .ok [recAt 10, recAt 5, recAt 5] ∧
    (update_data df_default_model (some dupUpload) "dup.csv" =
      ([recAt 10, recAt 5, recAt 5], .success "dup.csv") ∧
    dupUpload.hasDateColumn = true ∧
    parseDates dupUpload.rows = some [recAt 10, recAt 5, recAt 5] ∧
    ∀ r ∈ dupUpload.rows, r.rawDate.isSome = true) :=
  ⟨rfl, claim7_commit_verbatim df_default_model dupUpload "dup.csv"
    [recAt 10, recAt 5, recAt 5] rfl⟩

/-! ## Claim C9 — which views depend on which inputs -/

/-- Claim C9: in a render cycle the KPI panel and the growth, revenue and
engagement views are functions of the Dataset alone — changing the
ScenarioParameters changes none of them — while the forecast view genuinely
depends on the ScenarioParameters as well (two parameter settings over the
same Dataset produce different forecast views). -/
theorem claim9_dependencies :
    (∀ (ds : List MetricRecord) (p q : ScenarioParams),
      (renderCycle ds p).kpis = (renderCycle ds q).kpis ∧
      (renderCycle ds p).growth = (renderCycle ds q).growth ∧
      (renderCycle ds p).revenue = (renderCycle ds q).revenue ∧
      (renderCycle ds p).engagement = (renderCycle ds q).engagement) ∧
    (∃ (ds : List MetricRecord) (p q : ScenarioParams) (v w : ForecastView),
      (renderCycle ds p).forecastView = .ok v ∧
      (renderCycle ds q).forecastView = .ok w ∧ v ≠ w) := by
  refine ⟨fun ds p q => ⟨rfl, rfl, rfl, rfl⟩,
    [exRec1, exRec2], ⟨1, 1⟩, ⟨1, 2⟩,
    { historical := [(0, 1000), (30, 1100)]
    , forecastTrace := [(60, .fin 1210)] },
    { historical := [(0, 1000), (30, 1100)]
    , forecastTrace := [(60, .fin 1210), (90, .fin 1331)] }, ?_, ?_, ?_⟩
  · show (update_forecast [exRec1, exRec2] 1 1) = _
    unfold update_forecast
    rw [show forecast_metrics [exRec1, exRec2] 1 1 =
      .ok [{ date := 60, monthly_active_users := .fin 1210
           , monthly_revenue := .fin 720, type := "Forecast" }] from ?_]
    · rfl
    · obtain ⟨lastRec, hlast, heq⟩ :=
        forecast_metrics_spec [exRec1, exRec2] 1 1 (by decide) (by decide)
          (by decide)
      have hcalc : (sort_values [exRec1, exRec2]).getLast? = some exRec2 := rfl
      rw [hcalc] at hlast
      have hlr : lastRec = exRec2 := (Option.some_inj.mp hlast).symm
      subst hlr
      rw [heq, show List.range (Int.toNat 1) = [0] from rfl]
      norm_num [Except.ok.injEq, ForecastRow.mk.injEq, FV.fin.injEq,
        exRec1, exRec2, trailingWindow, tail6, sort_values, insertByDate,
        specGrowthRate, specMean, pctList, specPct]
  · show (update_forecast [exRec1, exRec2] 1 2) = _
    unfold update_forecast
    rw [show forecast_metrics [exRec1, exRec2] 2 1 =
      .ok [ { date := 60, monthly_active_users := .fin 1210
            , monthly_revenue := .fin 720, type := "Forecast" }
          , { date := 90, monthly_active_users := .fin 1331
            , monthly_revenue := .fin 864, type := "Forecast" } ] from ?_]
    · rfl
    · obtain ⟨lastRec, hlast, heq⟩ :=
        forecast_metrics_spec [exRec1, exRec2] 2 1 (by decide) (by decide)
          (by decide)
      have hcalc : (sort_values [exRec1, exRec2]).getLast? = some exRec2 := rfl
      rw [hcalc] at hlast
      have hlr : lastRec = exRec2 := (Option.some_inj.mp hlast).symm
      subst hlr
      rw [heq, show List.range (Int.toNat 2) = [0, 1] from rfl]
      norm_num [Except.ok.injEq, ForecastRow.mk.injEq, FV.fin.injEq,
        exRec1, exRec2, trailingWindow, tail6, sort_values, insertByDate,
        specGrowthRate, specMean, pctList, specPct]
  · decide

end Dashboard
